import Mathlib

/-!
Shallow embedding of the react-hooks teaching repository:
the todo component (src/02_useState_todos/02_useState_todos.js),
the theme component (src/unnamed/part_000), and the state-slot
store / render scheduler / hover behavior unit mechanism that the
specification describes (the markdown sources contain only prose
and illustrative snippets of that engine).
-/

/-! ## Todo component (src/02_useState_todos/02_useState_todos.js) -/

/-- A todo record `\x7b text, id \x7d` as built by `handleSubmit`. -/
structure TodoItem where
  text : String
  id : String
  deriving DecidableEq

/-- Base-36 digit rendered as a character, as `Number.prototype.toString(36)`
renders digits: `0`-`9` then `a`-`z`. -/
def digitChar36 (d : Fin 36) : Char :=
  if d.val < 10 then Char.ofNat (48 + d.val) else Char.ofNat (87 + d.val)

/-- `Math.random().toString(36)` for a draw in `[0,1)`, the draw represented
by the finite list of base-36 fraction digits the conversion prints: an empty
digit list renders as `"0"`, otherwise `"0."` followed by the digits. -/
def randomToString36 (frac : List (Fin 36)) : String :=
  if frac = [] then "0" else "0." ++ String.mk (frac.map digitChar36)

/-- JavaScript `String.prototype.substr(start, len)`: the substring starting
at index `start` of length at most `len`. -/
def substr (s : String) (start len : Nat) : String :=
  String.mk ((s.data.drop start).take len)

/-- `generateId`: `"_" + Math.random().toString(36).substr(2, 9)`, with the
random draw passed explicitly as its base-36 fraction digits. -/
def generateId (frac : List (Fin 36)) : String :=
  "_" ++ substr (randomToString36 frac) 2 9

/-- The two state cells of the `Todo` component:
`useState([])` for `todos` and `useState("")` for `input`. -/
structure TodoState where
  todos : List TodoItem
  input : String
  deriving DecidableEq

/-- The initial `Todo` state: empty list, empty input. -/
def initTodoState : TodoState := { todos := [], input := "" }

/-- `handleSubmit`:
`setTodos(todos => todos.concat(\x7b text: input, id: generateId() \x7d)); setInput("")`.
The random draw consumed by `generateId` is passed explicitly; both queued
updates are shown committed, as they are before the next render pass. -/
def handleSubmit (frac : List (Fin 36)) (s : TodoState) : TodoState :=
  { todos := s.todos ++ [{ text := s.input, id := generateId frac }]
    input := "" }

/-- `removeTodo`: `setTodos(todos => todos.filter(todo => todo.id !== id))`. -/
def removeTodo (id : String) (s : TodoState) : TodoState :=
  { s with todos := s.todos.filter (fun todo => todo.id != id) }

/-- Run a sequence of add interactions: for each pair `(text, draw)` the user
types `text` into the input cell (the `onChange` handler) and clicks Submit
(`handleSubmit`), whose `generateId` consumes `draw`. -/
def runAdds (calls : List (String × List (Fin 36))) (s : TodoState) : TodoState :=
  calls.foldl (fun st c => handleSubmit c.2 { st with input := c.1 }) s

/-! ## Theme component (src/unnamed/part_000) -/

/-- The initial value of the theme cell: `useState("light")`. -/
def themeInit : String := "light"

/-- One click of the rendered button: when the theme is `"light"` the rendered
button's handler is `() => setTheme("dark")`, otherwise it is
`() => setTheme("light")`. -/
def themeClick (theme : String) : String :=
  if theme = "light" then "dark" else "light"

/-- The theme cell after `n` button clicks from the initial state. -/
def runThemeClicks (n : Nat) : String :=
  themeClick^[n] themeInit

/-! ## State Slot Store invariant check (engine) -/

/-- Error raised by the engine during a render pass. -/
inductive RenderError where
  /-- The cell-call count of this pass differs from the previous pass. -/
  | cellCountMismatch (expected actual : Nat)
  /-- The instance was already halted by an earlier consistency violation. -/
  | haltedInstance
  deriving DecidableEq

/-- Modelled from the spec: the State Slot Store's per-instance bookkeeping
(spec sections 4.1, 4.2, 7); the engine itself is absent from the sources,
which carry only prose about it. `cells` is the ordered cell list, created on
the first render; `recordedCount` is the cell-call sequence length captured by
the previous pass (none before the first render); `halted` records a fatal
consistency violation. -/
structure StoreInstance (V : Type) where
  cells : List V
  recordedCount : Option Nat
  halted : Bool
  deriving DecidableEq

/-- Modelled from the spec: a freshly mounted instance, no cells yet. -/
def mountStore (V : Type) : StoreInstance V :=
  { cells := [], recordedCount := none, halted := false }

/-- Modelled from the spec: one render pass over the store (spec sections 4.1,
4.2, 7). The component body's `nextCell` calls of this pass are represented by
the list `inits` of the initial values they supply, so `inits.length` is the
pass's cell-call count. On the first render the cells are created from the
initials; on a re-render the initials are ignored and the existing cells are
returned by position, after the count is checked against the previous pass:
a mismatch is surfaced as a loud error and halts the instance for good. -/
def runPass (inst : StoreInstance V) (inits : List V) :
    StoreInstance V × Except RenderError (List V) :=
  if inst.halted then (inst, .error .haltedInstance)
  else
    match inst.recordedCount with
    | none =>
        ({ cells := inits, recordedCount := some inits.length, halted := false },
         .ok inits)
    | some n =>
        if inits.length = n then
          ({ inst with recordedCount := some n }, .ok inst.cells)
        else
          ({ inst with halted := true },
           .error (.cellCountMismatch n inits.length))

/-! ## Render Scheduler (engine) -/

/-- Modelled from the spec: the Render Scheduler's per-instance state
(spec section 4.2); the engine is absent from the sources. `dirty` and
`queued` realise the Clean/Dirty state machine and the pending-render queue;
`inFlight` marks a render currently running; `renderCount` counts executed
render passes. -/
structure SchedInstance where
  dirty : Bool
  queued : Bool
  inFlight : Bool
  renderCount : Nat
  deriving DecidableEq

/-- Modelled from the spec: `scheduleRender(instance)` (spec section 4.2):
if a render is already in flight or already queued the call is a no-op
(coalescing); otherwise it marks the instance dirty and enqueues one render
pass for the next scheduling turn. -/
def scheduleRender (i : SchedInstance) : SchedInstance :=
  if i.inFlight || i.queued then i
  else { i with dirty := true, queued := true }

/-- Modelled from the spec: the next scheduling turn: if a render pass is
queued for the instance it runs exactly one pass, leaving the instance clean;
otherwise nothing happens. -/
def runTurn (i : SchedInstance) : SchedInstance :=
  if i.queued then
    { i with queued := false, dirty := false, renderCount := i.renderCount + 1 }
  else i

/-! ## Hover behavior unit (src/d_Custom_Hooks.md, `useHover`; engine modelled) -/

/-- Modelled from the spec: one mounted instance of a component using the
hover unit (spec section 4.3; the `useHover` snippet in the sources): its
single boolean cell `hovering` (initial `false`) and the FIFO queue of
pending update requests, since the `useState` engine itself is absent from
the sources. -/
structure HoverInstance where
  cell : Bool
  pending : List Bool
  deriving DecidableEq

/-- Modelled from the spec: a freshly mounted hover instance:
`useState(false)`, nothing pending. -/
def hoverMount : HoverInstance := { cell := false, pending := [] }

/-- The unit's enter handler `() => setHovering(true)`: enqueues an update
request carrying `true` (spec: `requestUpdate(cell, true)`). -/
def onPointerEnter (i : HoverInstance) : HoverInstance :=
  { i with pending := i.pending ++ [true] }

/-- The unit's leave handler `() => setHovering(false)`: enqueues an update
request carrying `false` (spec: `requestUpdate(cell, false)`). -/
def onPointerLeave (i : HoverInstance) : HoverInstance :=
  { i with pending := i.pending ++ [false] }

/-- Modelled from the spec: one render pass of the hover instance:
`commitPendingUpdates` applies the queued requests in FIFO order (plain
values collapse to the last one), then the body reads the cell and reports
it as `isHovering`. -/
def hoverRenderPass (i : HoverInstance) : HoverInstance × Bool :=
  let c := i.pending.foldl (fun _ v => v) i.cell
  ({ cell := c, pending := [] }, c)

/-- Modelled from the spec: a world of two independently mounted component
instances that each use the hover unit; each owns its own cell
(spec sections 4.3, 5: cells are never shared across instances). -/
structure HoverWorld where
  inst1 : HoverInstance
  inst2 : HoverInstance
  deriving DecidableEq

/-- The initial world: both hover instances freshly mounted. -/
def hoverWorld0 : HoverWorld := { inst1 := hoverMount, inst2 := hoverMount }

/-- An event of the two-instance world: a pointer enter/leave dispatched to
one instance's handlers, or a render pass of one instance. -/
inductive HoverEvent where
  | enter1 | leave1 | render1
  | enter2 | leave2 | render2
  deriving DecidableEq

/-- Events owned by the second instance. -/
def ownedBy2 : HoverEvent → Bool
  | .enter2 => true
  | .leave2 => true
  | .render2 => true
  | _ => false

/-- Apply one event to the world: each event only touches its own instance. -/
def hoverStep (w : HoverWorld) : HoverEvent → HoverWorld
  | .enter1 => { w with inst1 := onPointerEnter w.inst1 }
  | .leave1 => { w with inst1 := onPointerLeave w.inst1 }
  | .render1 => { w with inst1 := (hoverRenderPass w.inst1).1 }
  | .enter2 => { w with inst2 := onPointerEnter w.inst2 }
  | .leave2 => { w with inst2 := onPointerLeave w.inst2 }
  | .render2 => { w with inst2 := (hoverRenderPass w.inst2).1 }

/-- Run a list of events through the world. -/
def hoverRun (w : HoverWorld) (es : List HoverEvent) : HoverWorld :=
  es.foldl hoverStep w

/-- The effect of an event on the second instance alone. -/
def applyEvent2 (i : HoverInstance) : HoverEvent → HoverInstance
  | .enter2 => onPointerEnter i
  | .leave2 => onPointerLeave i
  | .render2 => (hoverRenderPass i).1
  | _ => i

/-! ## Helper lemmas -/

theorem string_length_data (s : String) : s.length = s.data.length := rfl

theorem runAdds_todos_eq (calls : List (String × List (Fin 36))) :
    ∀ s : TodoState, (runAdds calls s).todos
      = s.todos ++ calls.map (fun c => { text := c.1, id := generateId c.2 }) := by
  induction calls with
  | nil => intro s; simp [runAdds]
  | cons c cs ih =>
    intro s
    have hstep : runAdds (c :: cs) s
        = runAdds cs (handleSubmit c.2 { s with input := c.1 }) := rfl
    rw [hstep, ih]
    simp [handleSubmit]

theorem foldl_append_last (c v : Bool) (l : List Bool) :
    (l ++ [v]).foldl (fun _ x => x) c = v := by
  induction l generalizing c with
  | nil => rfl
  | cons a l ih =>
    simp only [List.cons_append, List.foldl_cons]
    exact ih a

/-! ## Theorems -/

/-- Claim C1, counterexample: `handleSubmit` on an input that is empty after
trimming (here `""`, and also `"   "`) is not a no-op: the list length grows. -/
theorem submit_empty_text_not_noop :
    (handleSubmit [] initTodoState).todos ≠ initTodoState.todos ∧
    (handleSubmit [] initTodoState).todos.length = initTodoState.todos.length + 1 ∧
    (handleSubmit [] { todos := [], input := "   " }).todos.length = 1 := by
  decide

/-- Claim C1, amended: `handleSubmit` performs no emptiness check at all: for
every state and random draw it appends exactly one record carrying the current
input text — even when that text is empty after trimming — so the list length
always increases by exactly 1 and the call is never a no-op. -/
theorem handleSubmit_always_appends (frac : List (Fin 36)) (s : TodoState) :
    (handleSubmit frac s).todos
      = s.todos ++ [{ text := s.input, id := generateId frac }] ∧
    (handleSubmit frac s).todos.length = s.todos.length + 1 := by
  refine ⟨rfl, ?_⟩
  simp [handleSubmit]

/-- Claim C8: in addition to appending the new record, `handleSubmit` always
resets the input cell to the empty string (`setInput("")`) — a side effect on
a second cell, which does change the cell whenever the input was non-empty. -/
theorem handleSubmit_resets_input :
    (∀ (frac : List (Fin 36)) (s : TodoState), (handleSubmit frac s).input = "") ∧
    (handleSubmit [] { todos := [], input := "abc" }).input ≠ "abc" := by
  refine ⟨fun _ _ => rfl, ?_⟩
  decide

/-- Claim C9: for every value of the random source, `generateId` returns `"_"`
followed by at most 9 characters taken from the base-36 expansion of the draw,
so it always begins with `'_'` and its length is between 1 and 10. -/
theorem generateId_spec (frac : List (Fin 36)) :
    (generateId frac).data = '_' :: (frac.map digitChar36).take 9 ∧
    1 ≤ (generateId frac).length ∧ (generateId frac).length ≤ 10 := by
  have hdata : (generateId frac).data = '_' :: (frac.map digitChar36).take 9 := by
    cases frac <;> rfl
  refine ⟨hdata, ?_, ?_⟩
  · rw [string_length_data, hdata]
    simp
  · rw [string_length_data, hdata]
    have h9 : ((frac.map digitChar36).take 9).length ≤ 9 :=
      List.length_take_le 9 (frac.map digitChar36)
    simp only [List.length_cons]
    exact Nat.succ_le_succ h9

/-- Claim C10: the theme cell is initialized to `"light"`, each button click
sets it to exactly the other of the two values, and hence every reachable
state of the `Theme` instance holds either `"light"` or `"dark"`. -/
theorem theme_invariant :
    themeInit = "light" ∧
    themeClick "light" = "dark" ∧ themeClick "dark" = "light" ∧
    ∀ n : Nat, runThemeClicks n = "light" ∨ runThemeClicks n = "dark" := by
  refine ⟨rfl, rfl, rfl, ?_⟩
  intro n
  induction n with
  | zero => exact Or.inl rfl
  | succ n ih =>
    have hstep : runThemeClicks (n + 1) = themeClick (runThemeClicks n) := by
      simp [runThemeClicks, Function.iterate_succ_apply']
    rcases ih with h | h <;> rw [hstep, h]
    · exact Or.inr rfl
    · exact Or.inl rfl

theorem filter_ne_split (i : String) :
    ∀ l : List TodoItem, (l.map TodoItem.id).Nodup → (∃ t ∈ l, t.id = i) →
      ∃ l1 t l2, l = l1 ++ t :: l2 ∧ t.id = i ∧
        l.filter (fun x => x.id != i) = l1 ++ l2 := by
  intro l
  induction l with
  | nil =>
    intro _ hex
    simp at hex
  | cons a l ih =>
    intro hnd hex
    have hnd2 : (a.id ∉ l.map TodoItem.id) ∧ (l.map TodoItem.id).Nodup :=
      List.nodup_cons.mp (by simpa using hnd)
    by_cases ha : a.id = i
    · refine ⟨[], a, l, by simp, ha, ?_⟩
      have hkeep : ∀ x ∈ l, (x.id != i) = true := by
        intro x hx
        have hne : x.id ≠ i := by
          intro hxi
          have hm : x.id ∈ l.map TodoItem.id := List.mem_map_of_mem TodoItem.id hx
          rw [hxi, ← ha] at hm
          exact hnd2.1 hm
        simpa using hne
      have hpa : (a.id != i) = false := by simpa using ha
      simp only [List.filter_cons, hpa, Bool.false_eq_true, if_false, List.nil_append]
      exact List.filter_eq_self.mpr hkeep
    · obtain ⟨t, ht, hti⟩ := hex
      have htl : t ∈ l := by
        rcases List.mem_cons.mp ht with rfl | hmem
        · exact absurd hti ha
        · exact hmem
      obtain ⟨l1, u, l2, hl, hui, hf⟩ := ih hnd2.2 ⟨t, htl, hti⟩
      have hpa : (a.id != i) = true := by simpa using ha
      refine ⟨a :: l1, u, l2, by rw [List.cons_append, ← hl], hui, ?_⟩
      simp only [List.filter_cons, hpa, if_true, List.cons_append]
      rw [hf]

/-- Claim C2, counterexample: from a reachable state whose two records share
the id `"_1"` (both draws of the random source were equal), `removeTodo "_1"`
removes both records, decreasing the length by 2, not by exactly 1. -/
theorem removeTodo_duplicate_ids_cex :
    (runAdds [("a", [(1 : Fin 36)]), ("b", [1])] initTodoState).todos.length = 2 ∧
    (removeTodo "_1"
      (runAdds [("a", [(1 : Fin 36)]), ("b", [1])] initTodoState)).todos.length = 0 := by
  decide

/-- Claim C2, amended: `removeTodo id` keeps exactly the records whose id
differs, so when the record ids are pairwise distinct it removes exactly the
one matching record — splitting the list around it and leaving every other
record unchanged in order, with the length decreasing by exactly 1 — and it
is a no-op when no record has that id. -/
theorem removeTodo_spec (i : String) (s : TodoState)
    (h : (s.todos.map TodoItem.id).Nodup) :
    ((∀ t ∈ s.todos, t.id ≠ i) → removeTodo i s = s) ∧
    ((∃ t ∈ s.todos, t.id = i) →
      ∃ l1 t l2, s.todos = l1 ++ t :: l2 ∧ t.id = i ∧
        (removeTodo i s).todos = l1 ++ l2 ∧
        (removeTodo i s).todos.length + 1 = s.todos.length) := by
  constructor
  · intro habs
    have hkeep : ∀ x ∈ s.todos, (x.id != i) = true := by
      intro x hx
      simpa using habs x hx
    simp only [removeTodo]
    rw [List.filter_eq_self.mpr hkeep]
  · intro hex
    obtain ⟨l1, t, l2, hl, hti, hf⟩ := filter_ne_split i s.todos h hex
    refine ⟨l1, t, l2, hl, hti, hf, ?_⟩
    show (s.todos.filter _).length + 1 = s.todos.length
    rw [hf, hl]
    simp [List.length_append]
    omega

/-- Witness for the amended Claim C2 theorem at a concrete list with distinct
ids: removing the present id `"1"` decreases the length by exactly 1. -/
theorem removeTodo_spec_witness :
    (([⟨"a", "1"⟩, ⟨"b", "2"⟩] : List TodoItem).map TodoItem.id).Nodup ∧
    (removeTodo "1" { todos := [⟨"a", "1"⟩, ⟨"b", "2"⟩], input := "" }).todos.length + 1
      = ({ todos := [⟨"a", "1"⟩, ⟨"b", "2"⟩], input := "" } : TodoState).todos.length := by
  refine ⟨by decide, ?_⟩
  obtain ⟨_, _, _, _, _, _, hlen⟩ :=
    (removeTodo_spec "1" { todos := [⟨"a", "1"⟩, ⟨"b", "2"⟩], input := "" }
      (by decide)).2 ⟨⟨"a", "1"⟩, by decide, rfl⟩
  exact hlen

/-- Claim C4, counterexample: when the two random draws are equal, the two
added records carry the same id `"_1"` (the generator is only
collision-resistant, not injective), and removing the id of `"buy milk"`
also removes `"walk dog"`, yielding the empty list. -/
theorem runAdds_id_collision_cex :
    ((runAdds [("buy milk", [(1 : Fin 36)]), ("walk dog", [1])] initTodoState).todos.map
      TodoItem.id = ["_1", "_1"]) ∧
    ¬ ((runAdds [("buy milk", [(1 : Fin 36)]), ("walk dog", [1])] initTodoState).todos.map
      TodoItem.id).Nodup ∧
    (removeTodo "_1"
      (runAdds [("buy milk", [(1 : Fin 36)]), ("walk dog", [1])] initTodoState)).todos = [] := by
  decide

/-- Claim C4, amended: from the empty list, a sequence of add calls yields a
list whose length equals the number of calls, carrying the texts in exactly
the call order and each call's generated id; the ids are distinct whenever the
generated id strings are distinct (which equal random draws violate). -/
theorem runAdds_spec (calls : List (String × List (Fin 36))) :
    (runAdds calls initTodoState).todos.map TodoItem.text = calls.map Prod.fst ∧
    (runAdds calls initTodoState).todos.map TodoItem.id
      = calls.map (fun c => generateId c.2) ∧
    (runAdds calls initTodoState).todos.length = calls.length ∧
    ((calls.map (fun c => generateId c.2)).Nodup →
      ((runAdds calls initTodoState).todos.map TodoItem.id).Nodup) := by
  have h : (runAdds calls initTodoState).todos
      = calls.map (fun c => { text := c.1, id := generateId c.2 }) := by
    rw [runAdds_todos_eq calls initTodoState]
    rfl
  refine ⟨?_, ?_, ?_, ?_⟩
  · rw [h]
    simp [List.map_map, Function.comp]
  · rw [h]
    simp [List.map_map, Function.comp]
  · rw [h]
    simp
  · intro hnd
    rw [h]
    simpa [List.map_map, Function.comp] using hnd

/-- Witness for the amended Claim C4 theorem: the spec's end-to-end scenario
with distinct draws: `addItem("buy milk")` then `addItem("walk dog")` gives
the two texts in order with distinct ids, and removing the id of
`"buy milk"` leaves exactly `"walk dog"`. -/
theorem runAdds_spec_witness :
    (([("buy milk", [(1 : Fin 36)]), ("walk dog", [2])].map
        (fun c => generateId c.2)).Nodup) ∧
    ((runAdds [("buy milk", [(1 : Fin 36)]), ("walk dog", [2])] initTodoState).todos.map
      TodoItem.id).Nodup ∧
    ((runAdds [("buy milk", [(1 : Fin 36)]), ("walk dog", [2])] initTodoState).todos.map
      TodoItem.text = ["buy milk", "walk dog"]) ∧
    (removeTodo (generateId [1])
      (runAdds [("buy milk", [(1 : Fin 36)]), ("walk dog", [2])] initTodoState)).todos.map
      TodoItem.text = ["walk dog"] := by
  refine ⟨by decide, ?_, by decide, by decide⟩
  exact (runAdds_spec [("buy milk", [(1 : Fin 36)]), ("walk dog", [2])]).2.2.2 (by decide)

/-- Claim C3, counterexample: when only the ORDER of the cell-producing calls
changes between two consecutive passes while their count stays the same (the
two initials are swapped on the second pass), the store raises no failure at
all: the pass succeeds and silently re-binds the cells to their stored
positions — only a changed cell-call COUNT is detectable. -/
theorem runPass_order_change_silent :
    runPass (runPass (mountStore Bool) [true, false]).1 [false, true]
      = ((runPass (mountStore Bool) [true, false]).1, .ok [true, false]) ∧
    (runPass (runPass (mountStore Bool) [true, false]).1 [false, true]).1.halted = false := by
  exact ⟨rfl, rfl⟩

/-- Claim C3, amended: whenever the NUMBER of cell-producing calls differs
between two consecutive render passes of the same instance, the store detects
the mismatched cell-call count, fails loudly with the expected and actual
counts, and halts the instance: every later pass fails as well; an
order-only change with an equal count is not detected (see the
counterexample) — the design only checks counts. -/
theorem runPass_count_mismatch {V : Type} (inst : StoreInstance V)
    (inits : List V) (n : Nat) (hh : inst.halted = false)
    (hr : inst.recordedCount = some n) (hm : inits.length ≠ n) :
    (runPass inst inits).2 = .error (.cellCountMismatch n inits.length) ∧
    (runPass inst inits).1.halted = true ∧
    ∀ inits2 : List V,
      (runPass (runPass inst inits).1 inits2).2 = .error .haltedInstance := by
  refine ⟨?_, ?_, ?_⟩ <;> simp [runPass, hh, hr, hm]

/-- Witness for the amended Claim C3 theorem: an instance whose previous pass
made 1 cell call, re-rendered with 2 calls, fails with the mismatch error. -/
theorem runPass_count_mismatch_witness :
    (({ cells := [false], recordedCount := some 1, halted := false } :
        StoreInstance Bool).halted = false) ∧
    (([true, true] : List Bool).length ≠ 1) ∧
    (runPass ({ cells := [false], recordedCount := some 1, halted := false } :
        StoreInstance Bool) [true, true]).2
      = .error (.cellCountMismatch 1 2) := by
  refine ⟨rfl, by decide, ?_⟩
  exact (runPass_count_mismatch
    { cells := [false], recordedCount := some 1, halted := false }
    [true, true] 1 rfl rfl (by decide)).1

/-- Claim C5: for every hover instance state, after the enter handler the next
render pass reports `isHovering = true`; after the leave handler it reports
`false`; and a second enter in a row is idempotent — the pass after two enters
is identical to the pass after one, still reporting `true`. -/
theorem hover_reports (i : HoverInstance) :
    (hoverRenderPass (onPointerEnter i)).2 = true ∧
    (hoverRenderPass (onPointerLeave i)).2 = false ∧
    hoverRenderPass (onPointerEnter (onPointerEnter i))
      = hoverRenderPass (onPointerEnter i) := by
  have he : ∀ j : HoverInstance, (hoverRenderPass (onPointerEnter j)).2 = true := by
    intro j
    simp [hoverRenderPass, onPointerEnter, foldl_append_last]
  refine ⟨he i, ?_, ?_⟩
  · simp [hoverRenderPass, onPointerLeave, foldl_append_last]
  · have h2 := he (onPointerEnter i)
    have h1 := he i
    simp only [hoverRenderPass] at h2 h1 ⊢
    simp only [h2, h1]

theorem hoverRun_inst2_eq (es : List HoverEvent) :
    ∀ w : HoverWorld,
      (hoverRun w es).inst2 = (es.filter ownedBy2).foldl applyEvent2 w.inst2 := by
  induction es with
  | nil => intro w; rfl
  | cons e es ih =>
    intro w
    have hstep : hoverRun w (e :: es) = hoverRun (hoverStep w e) es := rfl
    rw [hstep, ih]
    cases e <;> simp [List.filter_cons, ownedBy2, hoverStep, applyEvent2]

/-- Claim C6: two independently mounted instances using the hover unit never
observe each other's hovering state: any two event runs that agree on the
second instance's own events — however much they differ in the first
instance's enters, leaves and renders — leave the second instance in the same
state and make its render pass report the same hovering value. -/
theorem hover_noninterference (w : HoverWorld) (es1 es2 : List HoverEvent)
    (h : es1.filter ownedBy2 = es2.filter ownedBy2) :
    (hoverRun w es1).inst2 = (hoverRun w es2).inst2 ∧
    (hoverRenderPass (hoverRun w es1).inst2).2
      = (hoverRenderPass (hoverRun w es2).inst2).2 := by
  have h2 : (hoverRun w es1).inst2 = (hoverRun w es2).inst2 := by
    rw [hoverRun_inst2_eq es1 w, hoverRun_inst2_eq es2 w, h]
  exact ⟨h2, by rw [h2]⟩

/-- Witness for the Claim C6 theorem: two concrete runs that differ only in
the first instance's events (an enter, a leave) agree on the second
instance's state. -/
theorem hover_noninterference_witness :
    ([HoverEvent.enter1, HoverEvent.enter2].filter ownedBy2
      = [HoverEvent.enter2, HoverEvent.leave1].filter ownedBy2) ∧
    (hoverRun hoverWorld0 [HoverEvent.enter1, HoverEvent.enter2]).inst2
      = (hoverRun hoverWorld0 [HoverEvent.enter2, HoverEvent.leave1]).inst2 := by
  refine ⟨by decide, ?_⟩
  exact (hover_noninterference hoverWorld0
    [HoverEvent.enter1, HoverEvent.enter2]
    [HoverEvent.enter2, HoverEvent.leave1] (by decide)).1

theorem scheduleRender_idem (i : SchedInstance) :
    scheduleRender (scheduleRender i) = scheduleRender i := by
  by_cases h : (i.inFlight || i.queued) = true
  · simp [scheduleRender, h]
  · simp [scheduleRender, h]

theorem scheduleRender_iterate_collapse (n : Nat) :
    ∀ i : SchedInstance,
      scheduleRender^[n] (scheduleRender i) = scheduleRender i := by
  induction n with
  | zero => intro i; rfl
  | succ n ih =>
    intro i
    rw [Function.iterate_succ_apply, scheduleRender_idem, ih]

/-- Claim C7: on a clean mounted instance with no render in flight and none
queued, calling `scheduleRender` two or more times before the next scheduling
turn coalesces: every call after the first is a no-op, and the turn then runs
exactly one render pass, leaving the instance clean again. -/
theorem scheduleRender_coalesces (i : SchedInstance) (n : Nat)
    (_hd : i.dirty = false) (hq : i.queued = false) (hf : i.inFlight = false) :
    scheduleRender^[n + 2] i = scheduleRender i ∧
    (runTurn (scheduleRender^[n + 2] i)).renderCount = i.renderCount + 1 ∧
    (runTurn (scheduleRender^[n + 2] i)).dirty = false ∧
    (runTurn (scheduleRender^[n + 2] i)).queued = false := by
  have hcoll : scheduleRender^[n + 2] i = scheduleRender i := by
    have h1 : scheduleRender^[n + 2] i
        = scheduleRender^[n + 1] (scheduleRender i) := by
      rw [Function.iterate_succ_apply]
    rw [h1, scheduleRender_iterate_collapse (n + 1) i]
  refine ⟨hcoll, ?_, ?_, ?_⟩ <;> rw [hcoll] <;> simp [scheduleRender, runTurn, hq, hf]

/-- Witness for the Claim C7 theorem: a clean idle instance, two
`scheduleRender` calls, one scheduling turn: exactly one render pass ran. -/
theorem scheduleRender_coalesces_witness :
    (({ dirty := false, queued := false, inFlight := false, renderCount := 0 } :
        SchedInstance).dirty = false) ∧
    (runTurn (scheduleRender^[2]
      ({ dirty := false, queued := false, inFlight := false, renderCount := 0 } :
        SchedInstance))).renderCount = 1 := by
  refine ⟨rfl, ?_⟩
  exact (scheduleRender_coalesces
    { dirty := false, queued := false, inFlight := false, renderCount := 0 }
    0 rfl rfl rfl).2.1
